import Mathlib

/-!
Verification of the chat-response protocol handler of the `ai` CLI
(`pkg/models`: `openai.go`, `factory.go`, `model.go`).

The Go code is shallowly embedded as follows.

* The wire types (`Message`, `Choice`, `Usage`, `OpenAIResponse`,
  `OpenAIRequest`, the anonymous stream-chunk struct) become Lean
  structures with the same fields.
* `strings.HasPrefix`, `strings.TrimPrefix` and `strings.HasSuffix` are
  modelled character-wise on `String.data` (`hasPrefix`, `trimPrefix`,
  `hasSuffix`).
* The streaming body handed to `bufio.Scanner` is modelled as the list
  of lines the scanner yields plus an optional read error that the
  scanner reports (through `scanner.Err()`) once those lines are
  exhausted; `json.Unmarshal` of a stream chunk is an explicit
  parameter `parse : String → Option StreamChunk` (it is Go standard
  library code, external to this repository).
* Go's `(string, error)` results become `String × Option ChatError`,
  with one `ChatError` constructor per error shape produced by
  `openai.go` (`fmt.Errorf` values carrying status/body, decode
  failure, empty choices, wrapped scanner error).
* Go `float64` option values (temperature) are modelled as `Rat`;
  no float arithmetic is performed on them anywhere in the embedded
  code.
-/

namespace AiSpec

/-- Model of `strings.HasPrefix s pre` (character-wise). -/
def hasPrefix (s pre : String) : Bool :=
  pre.data.isPrefixOf s.data

/-- Model of `strings.TrimPrefix s pre` (character-wise): drops `pre`
from the front of `s` when it is a prefix, otherwise returns `s`
unchanged. -/
def trimPrefix (s pre : String) : String :=
  if hasPrefix s pre then ⟨s.data.drop pre.data.length⟩ else s

/-- Model of `strings.HasSuffix s suf` (character-wise). -/
def hasSuffix (s suf : String) : Bool :=
  suf.data.isSuffixOf s.data

/-- `Message` from `openai.go`: one conversation message. -/
structure Message where
  role : String
  content : String
deriving DecidableEq, Repr

/-- `Choice` from `openai.go`: one choice of a non-streaming response. -/
structure Choice where
  index : Int
  message : Message
  finishReason : String
deriving DecidableEq, Repr

/-- `Usage` from `openai.go`. -/
structure Usage where
  promptTokens : Int
  completionTokens : Int
  totalTokens : Int
deriving DecidableEq, Repr

/-- `OpenAIResponse` from `openai.go`: the non-streaming envelope. -/
structure OpenAIResponse where
  id : String
  object : String
  created : Int
  model : String
  choices : List Choice
  usage : Usage
deriving DecidableEq, Repr

/-- The `delta` field of the anonymous stream-chunk struct in
`handleStreamResponse`; absent JSON fields decode to `""`. -/
structure Delta where
  role : String
  content : String
deriving DecidableEq, Repr

/-- One element of `choices` of the anonymous stream-chunk struct. -/
structure ChunkChoice where
  index : Int
  delta : Delta
  finishReason : Option String
deriving DecidableEq, Repr

/-- The anonymous stream-chunk struct of `handleStreamResponse`. -/
structure StreamChunk where
  id : String
  object : String
  created : Int
  model : String
  choices : List ChunkChoice
deriving DecidableEq, Repr

/-- `ChatOptions` from `model.go`; `Temperature` (Go `float64`) is
modelled as a rational. -/
structure ChatOptions where
  temperature : Rat
  maxTokens : Int
  stream : Bool
  history : List Message
deriving DecidableEq, Repr

/-- `DefaultChatOptions` from `model.go` (temperature 0.2, 4096 max
tokens, streaming on, no history). -/
def DefaultChatOptions : ChatOptions :=
  { temperature := 1/5, maxTokens := 4096, stream := true, history := [] }

/-- `OpenAIRequest` from `openai.go`. -/
structure OpenAIRequest where
  model : String
  messages : List Message
  temperature : Rat
  maxTokens : Int
  stream : Bool
deriving DecidableEq, Repr

/-- The errors `openai.go` can return, one constructor per
`fmt.Errorf` shape: a non-200 HTTP status with the raw body, a JSON
decode failure of the non-streaming envelope, an envelope with zero
choices ("API returned empty response"), and a wrapped stream read
(scanner) error. -/
inductive ChatError where
  | apiError (statusCode : Nat) (body : String)
  | decodeError
  | emptyResponse
  | streamReadError (cause : String)
deriving DecidableEq, Repr

/-- Endpoint URL computation in `OpenAIClient.Chat`: ensure the base
URL ends in `/`, then append `v1/chat/completions`. -/
def endpointURL (apiURL : String) : String :=
  (if !(hasSuffix apiURL "/") then apiURL ++ "/" else apiURL) ++ "v1/chat/completions"

/-- Body of the `for scanner.Scan()` loop of `handleStreamResponse`
for one line: `none` means the loop `break`s (the `[DONE]` marker was
seen), `some acc2` means the loop continues with accumulator `acc2`.
The guard order is exactly the source's: skip empty lines, skip lines
without the `data: ` prefix, strip the prefix, test for `[DONE]`,
parse, skip on parse failure, skip chunks with no choices, append the
first choice's delta content when non-empty. -/
def streamStep (parse : String → Option StreamChunk) (acc line : String) :
    Option String :=
  if line = "" then some acc
  else if !(hasPrefix line "data: ") then some acc
  else
    let data := trimPrefix line "data: "
    if data = "[DONE]" then none
    else
      match parse data with
      | none => some acc
      | some chunk =>
        match chunk.choices with
        | [] => some acc
        | choice :: _ =>
          if choice.delta.content = "" then some acc
          else some (acc ++ choice.delta.content)

/-- The scan loop of `handleStreamResponse` over the remaining lines.
On a `break` the function returns the accumulated text with no error
(the scanner never reached the failing read, so `scanner.Err()` is
nil); on exhausting the lines it returns the accumulated text together
with the scanner's read error, if any, wrapped as in the source. -/
def streamLoop (parse : String → Option StreamChunk) (readErr : Option String) :
    List String → String → String × Option ChatError
  | [], acc => (acc, readErr.map ChatError.streamReadError)
  | line :: rest, acc =>
    match streamStep parse acc line with
    | none => (acc, none)
    | some acc2 => streamLoop parse readErr rest acc2

/-- `handleStreamResponse` from `openai.go`: decode an SSE body, given
as the lines the scanner yields and the read error (if any) the
scanner reports after them, into the concatenated delta text. -/
def handleStreamResponse (parse : String → Option StreamChunk)
    (lines : List String) (readErr : Option String) : String × Option ChatError :=
  streamLoop parse readErr lines ""

/-- `handleNormalResponse` from `openai.go`, over the result of the
external `json.Decoder.Decode` call (`none` = decode failure): fail on
decode failure, fail with the empty-response error when `choices` is
empty, otherwise return `choices[0].message.content`. -/
def handleNormalResponse (decoded : Option OpenAIResponse) :
    String × Option ChatError :=
  match decoded with
  | none => ("", some ChatError.decodeError)
  | some apiResp =>
    match apiResp.choices with
    | [] => ("", some ChatError.emptyResponse)
    | choice :: _ => (choice.message.content, none)

/-- The HTTP response received by `OpenAIClient.Chat`, seen through
the readers the source applies to its body: `body` is what
`io.ReadAll` returns (used on the error path and by the non-streaming
JSON decoder), `bodyLines`/`readErr` are the scanner's view of the
same body (used on the streaming path). -/
structure HTTPResponse where
  statusCode : Nat
  body : String
  bodyLines : List String
  readErr : Option String

/-- The response handling of `OpenAIClient.Chat` after the HTTP round
trip: any status other than 200 fails with the API error carrying the
status and body; otherwise dispatch on the requested `stream` flag to
`handleStreamResponse` or `handleNormalResponse`. The two JSON
decoders (`encoding/json`, external) are explicit parameters. -/
def clientChatResponse (stream : Bool)
    (decodeEnvelope : String → Option OpenAIResponse)
    (decodeChunk : String → Option StreamChunk)
    (resp : HTTPResponse) : String × Option ChatError :=
  if resp.statusCode ≠ 200 then
    ("", some (ChatError.apiError resp.statusCode resp.body))
  else if stream then
    handleStreamResponse decodeChunk resp.bodyLines resp.readErr
  else
    handleNormalResponse (decodeEnvelope resp.body)

/-- The request `OpenAIClient.Chat` builds from its arguments before
serialization. -/
def buildRequest (model : String) (messages : List Message)
    (opts : ChatOptions) : OpenAIRequest :=
  { model := model, messages := messages, temperature := opts.temperature,
    maxTokens := opts.maxTokens, stream := opts.stream }

/-- Message building of `OpenAIModel.Chat` (`openai.go`): start from
an empty slice, append the history when non-empty, then append the
single user message with the question. -/
def chatMessages (opts : ChatOptions) (question : String) : List Message :=
  let messages : List Message := []
  let messages :=
    if opts.history.length > 0 then messages ++ opts.history else messages
  messages ++ [{ role := "user", content := question }]

/-- The fixed file-question template of `OpenAIModel.ChatWithFile`:
`fmt.Sprintf("file name: %s\n\nfile content:\n%s\n\nquestion: %s", …)`. -/
def fileQuestionPrompt (fileName fileContent question : String) : String :=
  "file name: " ++ fileName ++ "\n\nfile content:\n" ++ fileContent
    ++ "\n\nquestion: " ++ question

/-- Message building of `OpenAIModel.ChatWithFile` (`openai.go`): a
single user message holding the templated prompt. The options (which
may carry history) are taken as an argument to mirror the source's
scope; the source never reads `opts.History` here. -/
def chatWithFileMessages (opts : ChatOptions)
    (question fileName fileContent : String) : List Message :=
  let _ := opts
  [{ role := "user", content := fileQuestionPrompt fileName fileContent question }]

/-- Lookup-table model of `json.Unmarshal` restricted to a finite set
of concrete frame payloads: payloads in the table parse to their
chunk, everything else fails to parse. Used to instantiate the
`parse` parameter on concrete inputs. -/
def parseOf (table : List (String × StreamChunk)) (s : String) :
    Option StreamChunk :=
  (table.find? (fun p => p.1 == s)).map (fun p => p.2)

/-- A stream chunk whose single choice carries the delta content `c`,
shaped like the frames of the repository's stream test. -/
def deltaChunk (c : String) : StreamChunk :=
  { id := "chatcmpl-123", object := "chat.completion.chunk",
    created := 1677858242, model := "gpt-3.5-turbo-0613",
    choices := [{ index := 0, delta := { role := "", content := c },
                  finishReason := none }] }

/-- The terminal content-free chunk (`"delta":{}`, finish reason
`"stop"`). -/
def finishChunk : StreamChunk :=
  { id := "chatcmpl-123", object := "chat.completion.chunk",
    created := 1677858242, model := "gpt-3.5-turbo-0613",
    choices := [{ index := 0, delta := { role := "", content := "" },
                  finishReason := some "stop" }] }

/-- Boolean well-formedness of one frame: the payload is not the
terminal marker, it parses to a chunk with at least one choice, and
that choice's delta content is `d`. -/
def frameOkB (parse : String → Option StreamChunk) (p d : String) : Bool :=
  (p != "[DONE]") &&
    match parse p with
    | none => false
    | some chunk =>
      match chunk.choices with
      | [] => false
      | choice :: _ => choice.delta.content == d

/-- Boolean test for lines the scan loop ignores: empty lines and
lines without the `data: ` prefix. -/
def ignorableB (line : String) : Bool :=
  (line == "") || !(hasPrefix line "data: ")

/-- Boolean test for the line at which the scan loop `break`s: a
`data: ` line whose payload is exactly `[DONE]`. -/
def doneLineB (line : String) : Bool :=
  (line != "") && hasPrefix line "data: " && (trimPrefix line "data: " == "[DONE]")

/-- Concatenation of a list of strings in order, with no separator. -/
def concatAll : List String → String
  | [] => ""
  | s :: rest => s ++ concatAll rest

/-- Concrete parse table for the five content frames and the finish
frame of the spec's stream example. The payload strings stand in for
the JSON chunk texts of the repository's own stream test (which carry
these same five deltas); `parseOf` maps each to the decoded chunk and
fails on everything else. -/
def demoTable : List (String × StreamChunk) :=
  [("chunk-1-zheshi", deltaChunk "这是"),
   ("chunk-2-yige", deltaChunk "一个"),
   ("chunk-3-liushi", deltaChunk "流式"),
   ("chunk-4-xiangying", deltaChunk "响应"),
   ("chunk-5-ceshi", deltaChunk "测试"),
   ("chunk-6-finish", finishChunk)]

/-- The demo instantiation of the external chunk decoder. -/
def demoParse : String → Option StreamChunk := parseOf demoTable

/-- The five content frames of the spec's stream example, as frame
segments (ignorable lines preceding the frame, frame payload, frame
delta): SSE separates consecutive frames by a blank line. -/
def demoSegs : List (List String × String × String) :=
  [([], "chunk-1-zheshi", "这是"), ([""], "chunk-2-yige", "一个"),
   ([""], "chunk-3-liushi", "流式"), ([""], "chunk-4-xiangying", "响应"),
   ([""], "chunk-5-ceshi", "测试")]

/-! ### String helper lemmas -/

/-- A line of the form `"data: " ++ p` is never the empty line. -/
theorem dataLine_ne_empty (p : String) : ("data: " ++ p) = "" → False := by
  intro h
  have h2 : ("data: " ++ p).length = (0 : Nat) := by rw [h]; rfl
  rw [String.length_append] at h2
  have h3 : "data: ".length = 6 := rfl
  omega

/-- `hasPrefix` recognises a literal prefix. -/
theorem hasPrefix_append (pre p : String) : hasPrefix (pre ++ p) pre = true := by
  simp [hasPrefix, String.data_append, List.isPrefixOf_iff_prefix,
    List.prefix_append]

/-- `trimPrefix` strips a literal prefix. -/
theorem trimPrefix_append (pre p : String) : trimPrefix (pre ++ p) pre = p := by
  rw [trimPrefix, if_pos (hasPrefix_append pre p)]
  apply String.ext
  simp [String.data_append, List.drop_left]

/-- Appending a slash yields a string ending in a slash. -/
theorem hasSuffix_append_slash (b : String) : hasSuffix (b ++ "/") "/" = true := by
  simp [hasSuffix, String.data_append, List.isSuffixOf_iff_suffix]

/-! ### Behaviour of one iteration of the scan loop -/

/-- Ignorable lines (empty, or missing the `data: ` prefix) leave the
accumulator unchanged and do not stop the loop. -/
theorem streamStep_ignorable (parse : String → Option StreamChunk)
    (acc line : String) (h : ignorableB line = true) :
    streamStep parse acc line = some acc := by
  simp only [ignorableB, Bool.or_eq_true, beq_iff_eq, Bool.not_eq_true'] at h
  rcases h with h | h
  · simp [streamStep, h]
  · by_cases hl : line = "" <;> simp [streamStep, hl, h]

/-- Unpacking of `frameOkB`. -/
theorem frameOkB_elim (parse : String → Option StreamChunk) (p d : String)
    (h : frameOkB parse p d = true) :
    ¬ p = "[DONE]" ∧ ∃ chunk choice rest, parse p = some chunk ∧
      chunk.choices = choice :: rest ∧ choice.delta.content = d := by
  simp only [frameOkB, Bool.and_eq_true, bne_iff_ne, ne_eq] at h
  obtain ⟨hnd, hrest⟩ := h
  refine ⟨hnd, ?_⟩
  split at hrest
  · exact absurd hrest (by simp)
  · rename_i chunk hp
    split at hrest
    · exact absurd hrest (by simp)
    · rename_i choice rest hc
      exact ⟨chunk, choice, rest, hp, hc, by simpa using hrest⟩

/-- A well-formed frame line appends its delta content. -/
theorem streamStep_frame (parse : String → Option StreamChunk)
    (acc p d : String) (h : frameOkB parse p d = true) :
    streamStep parse acc ("data: " ++ p) = some (acc ++ d) := by
  obtain ⟨hnd, chunk, choice, rest, hp, hc, hd⟩ := frameOkB_elim parse p d h
  rw [streamStep, if_neg (dataLine_ne_empty p), hasPrefix_append]
  simp only [Bool.not_true, Bool.false_eq_true, if_false, trimPrefix_append]
  rw [if_neg hnd]
  by_cases hd0 : d = ""
  · simp [hp, hc, hd, hd0, String.append_empty]
  · simp [hp, hc, hd, hd0]

/-- The loop stops exactly at a `data: [DONE]` marker line. -/
theorem streamStep_done (parse : String → Option StreamChunk)
    (acc line : String) (h : doneLineB line = true) :
    streamStep parse acc line = none := by
  simp only [doneLineB, Bool.and_eq_true, bne_iff_ne, beq_iff_eq, ne_eq] at h
  obtain ⟨⟨h1, h2⟩, h3⟩ := h
  simp [streamStep, h1, h2, h3]

/-- A line that is not a `data: [DONE]` marker never stops the loop. -/
theorem streamStep_isSome_of_not_done (parse : String → Option StreamChunk)
    (acc line : String) (h : doneLineB line = false) :
    (streamStep parse acc line).isSome = true := by
  simp only [doneLineB, Bool.and_eq_false_iff, bne_eq_false_iff_eq,
    beq_eq_false_iff_ne, ne_eq] at h
  rw [streamStep]
  by_cases h1 : line = ""
  · simp [h1]
  · rw [if_neg h1]
    by_cases h2 : hasPrefix line "data: " = true
    · simp only [h2, Bool.not_true, Bool.false_eq_true, if_false]
      have h3 : ¬ trimPrefix line "data: " = "[DONE]" := by
        rcases h with (h | h) | h
        · exact absurd h h1
        · rw [h] at h2; simp at h2
        · exact h
      rw [if_neg h3]
      split
      · simp
      · split
        · simp
        · split <;> simp
    · simp [h2]

/-! ### Behaviour of the scan loop over whole line lists -/

/-- A leading block of ignorable lines can be dropped. -/
theorem streamLoop_ignorable (parse : String → Option StreamChunk)
    (e : Option String) (rest : List String) :
    ∀ (ig : List String) (acc : String), ig.all ignorableB = true →
      streamLoop parse e (ig ++ rest) acc = streamLoop parse e rest acc := by
  intro ig
  induction ig with
  | nil => intro acc _; rfl
  | cons l ig ih =>
    intro acc h
    simp only [List.all_cons, Bool.and_eq_true] at h
    rw [List.cons_append]
    simp only [streamLoop, streamStep_ignorable parse acc l h.1]
    exact ih acc h.2

/-- A leading run of well-formed frame segments (each: some ignorable
lines, then one frame line) appends its deltas, in order. -/
theorem streamLoop_frames (parse : String → Option StreamChunk)
    (e : Option String) (rest : List String) :
    ∀ (segs : List (List String × String × String)) (acc : String),
      segs.all (fun s => s.1.all ignorableB) = true →
      segs.all (fun s => frameOkB parse s.2.1 s.2.2) = true →
      streamLoop parse e
          ((segs.map (fun s => s.1 ++ ["data: " ++ s.2.1])).flatten ++ rest) acc
        = streamLoop parse e rest (acc ++ concatAll (segs.map (fun s => s.2.2))) := by
  intro segs
  induction segs with
  | nil => intro acc _ _; simp [concatAll, String.append_empty]
  | cons s segs ih =>
    intro acc hig hfr
    simp only [List.all_cons, Bool.and_eq_true] at hig hfr
    rw [List.map_cons, List.flatten_cons, List.append_assoc, List.append_assoc,
      streamLoop_ignorable parse e _ s.1 acc hig.1]
    rw [List.singleton_append]
    simp only [streamLoop, streamStep_frame parse acc s.2.1 s.2.2 hfr.1]
    rw [ih (acc ++ s.2.2) hig.2 hfr.2]
    simp only [List.map_cons, concatAll, String.append_assoc]

/-- Everything after a `data: [DONE]` line is irrelevant, as is the
read error (the loop `break`s before the failing read could happen). -/
theorem streamLoop_stops_at_done (parse : String → Option StreamChunk)
    (e e2 : Option String) (suf : List String) :
    ∀ (pre : List String) (acc : String),
      streamLoop parse e (pre ++ "data: [DONE]" :: suf) acc
        = streamLoop parse e2 (pre ++ ["data: [DONE]"]) acc := by
  intro pre
  induction pre with
  | nil =>
    intro acc
    have hdone : doneLineB "data: [DONE]" = true := by decide
    simp only [List.nil_append, streamLoop, streamStep_done parse acc _ hdone]
  | cons l pre ih =>
    intro acc
    simp only [List.cons_append, streamLoop]
    cases streamStep parse acc l with
    | none => rfl
    | some acc2 => exact ih acc2

/-- A `data: ` line whose payload fails to parse and is not the
`[DONE]` marker is skipped with no effect on the result. -/
theorem streamLoop_skip_unparsable (parse : String → Option StreamChunk)
    (bad : String) (hparse : parse bad = none) (hnd : ¬ bad = "[DONE]")
    (e : Option String) (suf : List String) :
    ∀ (pre : List String) (acc : String),
      streamLoop parse e (pre ++ ("data: " ++ bad) :: suf) acc
        = streamLoop parse e (pre ++ suf) acc := by
  intro pre
  induction pre with
  | nil =>
    intro acc
    have hstep : streamStep parse acc ("data: " ++ bad) = some acc := by
      rw [streamStep, if_neg (dataLine_ne_empty bad), hasPrefix_append]
      simp only [Bool.not_true, Bool.false_eq_true, if_false, trimPrefix_append]
      rw [if_neg hnd, hparse]
    simp only [List.nil_append, streamLoop, hstep]
  | cons l pre ih =>
    intro acc
    simp only [List.cons_append, streamLoop]
    cases streamStep parse acc l with
    | none => rfl
    | some acc2 => exact ih acc2

/-- When no line in the input is the `[DONE]` marker, a failing read
surfaces the error together with exactly the text a clean run over the
same lines would have accumulated. -/
theorem streamLoop_readErr_keeps_text (parse : String → Option StreamChunk)
    (cause : String) :
    ∀ (lines : List String) (acc : String),
      lines.all (fun l => !(doneLineB l)) = true →
      streamLoop parse (some cause) lines acc
        = ((streamLoop parse none lines acc).1,
           some (ChatError.streamReadError cause)) := by
  intro lines
  induction lines with
  | nil => intro acc _; rfl
  | cons l lines ih =>
    intro acc h
    simp only [List.all_cons, Bool.and_eq_true, Bool.not_eq_true'] at h
    have hs := streamStep_isSome_of_not_done parse acc l h.1
    cases hstep : streamStep parse acc l with
    | none => rw [hstep] at hs; simp at hs
    | some acc2 =>
      simp only [streamLoop, hstep]
      exact ih acc2 h.2

/-! ### Claim theorems -/

/-- Claim C1: for every SSE input whose `data: ` frames carry content
deltas `d1..dn` in that order (each frame a well-formed `StreamChunk`
with at least one choice, possibly preceded by ignorable lines such as
the blank SSE separators), followed by a frame whose delta has no
content and a `data: [DONE]` marker, `handleStreamResponse` returns
exactly the concatenation `d1 ++ d2 ++ … ++ dn` in arrival order, with
no separators inserted. -/
theorem c1_stream_concatenation (parse : String → Option StreamChunk)
    (segs : List (List String × String × String))
    (igFin igDone : List String) (finishP : String) (e : Option String)
    (hig : segs.all (fun s => s.1.all ignorableB) = true)
    (hfr : segs.all (fun s => frameOkB parse s.2.1 s.2.2) = true)
    (higFin : igFin.all ignorableB = true)
    (higDone : igDone.all ignorableB = true)
    (hfin : frameOkB parse finishP "" = true) :
    handleStreamResponse parse
        ((segs.map (fun s => s.1 ++ ["data: " ++ s.2.1])).flatten
          ++ igFin ++ ("data: " ++ finishP) :: (igDone ++ ["data: [DONE]"])) e
      = (concatAll (segs.map (fun s => s.2.2)), none) := by
  rw [handleStreamResponse, List.append_assoc,
    streamLoop_frames parse e _ segs "" hig hfr,
    streamLoop_ignorable parse e _ igFin _ higFin]
  rw [String.empty_append]
  have hstep := streamStep_frame parse (concatAll (segs.map (fun s => s.2.2)))
    finishP "" hfin
  simp only [streamLoop, hstep, String.append_empty]
  rw [streamLoop_ignorable parse e _ igDone _ higDone]
  have hdone := streamStep_done parse (concatAll (segs.map (fun s => s.2.2)))
    "data: [DONE]" (by decide)
  simp only [streamLoop, hdone]

/-- Witness for C1: the spec's concrete five-delta stream decodes to
`"这是一个流式响应测试"`. -/
theorem c1_stream_concatenation_witness :
    handleStreamResponse demoParse
        ((demoSegs.map (fun s => s.1 ++ ["data: " ++ s.2.1])).flatten
          ++ [""] ++ ("data: " ++ "chunk-6-finish") :: ([""] ++ ["data: [DONE]"])) none
      = ("这是一个流式响应测试", none) :=
  (c1_stream_concatenation demoParse demoSegs [""] [""] "chunk-6-finish" none
    (by decide) (by decide) (by decide) (by decide) (by decide)).trans (by decide)

/-- Claim C2 (counterexample): a `ChatWithFile` call with non-empty
history does NOT send the history followed by the templated user
message — the history is dropped, so the claim's description of the
outgoing sequence fails for `ChatWithFile`. -/
theorem c2_counterexample :
    ¬ (chatWithFileMessages
        { temperature := 1/5, maxTokens := 4096, stream := true,
          history := [{ role := "user", content := "earlier question" }] }
        "q" "notes.txt" "file body"
      = [{ role := "user", content := "earlier question" }]
        ++ [{ role := "user",
              content := fileQuestionPrompt "notes.txt" "file body" "q" }]) := by
  decide

/-- Claim C2 (amended): `Chat` sends the supplied history, in order,
followed by exactly one new user message with the question;
`ChatWithFile` sends exactly one user message whose content is the
fixed template over file name, file content and question (the file
contribution is not a separate message), and any history supplied via
options is not included. -/
theorem c2_messages_amended :
    (∀ (opts : ChatOptions) (question : String),
       chatMessages opts question
         = opts.history ++ [{ role := "user", content := question }])
    ∧ ∀ (opts : ChatOptions) (question fileName fileContent : String),
        chatWithFileMessages opts question fileName fileContent
          = [{ role := "user",
               content := fileQuestionPrompt fileName fileContent question }] := by
  constructor
  · intro opts question
    cases h : opts.history with
    | nil => simp [chatMessages, h]
    | cons m ms => simp [chatMessages, h]
  · intro opts question fileName fileContent
    rfl

/-- Claim C3: every HTTP response with status ≥ 400 makes `Chat` fail
with the API error carrying that status code and the raw body,
whatever the body is; the result does not depend on either decoder, so
the body is never decoded as an envelope or as a stream. -/
theorem c3_error_status_api_error (stream : Bool)
    (decodeEnvelope : String → Option OpenAIResponse)
    (decodeChunk : String → Option StreamChunk)
    (resp : HTTPResponse) (h : 400 ≤ resp.statusCode) :
    clientChatResponse stream decodeEnvelope decodeChunk resp
      = ("", some (ChatError.apiError resp.statusCode resp.body)) := by
  have h2 : resp.statusCode ≠ 200 := by omega
  rw [clientChatResponse, if_pos h2]

/-- Witness for C3: a 404 with a non-JSON body, with streaming
requested, yields the API error. -/
theorem c3_error_status_api_error_witness :
    clientChatResponse true (fun _ => none) (fun _ => none)
        { statusCode := 404, body := "not found, not json",
          bodyLines := ["data: chunk-1-zheshi"], readErr := none }
      = ("", some (ChatError.apiError 404 "not found, not json")) :=
  c3_error_status_api_error true (fun _ => none) (fun _ => none)
    { statusCode := 404, body := "not found, not json",
      bodyLines := ["data: chunk-1-zheshi"], readErr := none } (by decide)

/-- Claim C4: a decoded envelope with an empty choices list yields the
empty-response error (a total function: no panic, and not an empty
string as success), and an envelope with at least one choice yields
`choices[0].message.content`. -/
theorem c4_empty_choices_error :
    (∀ resp : OpenAIResponse, resp.choices = [] →
       handleNormalResponse (some resp) = ("", some ChatError.emptyResponse))
    ∧ ∀ (resp : OpenAIResponse) (c : Choice) (cs : List Choice),
        resp.choices = c :: cs →
        handleNormalResponse (some resp) = (c.message.content, none) := by
  constructor
  · intro resp h
    simp [handleNormalResponse, h]
  · intro resp c cs h
    simp [handleNormalResponse, h]

/-- Witness for C4: the repository's test envelope with its choices
list emptied fails with the empty-response error; with its one real
choice it returns that choice's content. -/
theorem c4_empty_choices_error_witness :
    handleNormalResponse (some
        { id := "chatcmpl-123", object := "chat.completion",
          created := 1677858242, model := "gpt-3.5-turbo-0613", choices := [],
          usage := { promptTokens := 10, completionTokens := 20, totalTokens := 30 } })
      = ("", some ChatError.emptyResponse)
    ∧ handleNormalResponse (some
        { id := "chatcmpl-123", object := "chat.completion",
          created := 1677858242, model := "gpt-3.5-turbo-0613",
          choices := [{ index := 0,
                        message := { role := "assistant",
                                     content := "this is a test response" },
                        finishReason := "stop" }],
          usage := { promptTokens := 10, completionTokens := 20, totalTokens := 30 } })
      = ("this is a test response", none) :=
  ⟨c4_empty_choices_error.1 _ rfl, c4_empty_choices_error.2 _ _ _ rfl⟩

/-- Claim C5 (counterexample): the claim as stated fails for the
payload `[DONE]`: that payload fails to parse as a `StreamChunk`, yet
inserting the line `data: [DONE]` between two valid frames truncates
the output instead of leaving it unchanged. -/
theorem c5_counterexample :
    demoParse "[DONE]" = none
    ∧ handleStreamResponse demoParse
          ["data: chunk-1-zheshi", "data: [DONE]",
           "data: chunk-2-yige", "data: [DONE]"] none
        ≠ handleStreamResponse demoParse
          ["data: chunk-1-zheshi", "data: chunk-2-yige", "data: [DONE]"] none := by
  constructor
  · rfl
  · decide

/-- Claim C5 (amended): inserting a `data: ` line whose payload fails
to parse as a `StreamChunk` and is not the literal `[DONE]` marker
(e.g. `data: {not json`) anywhere in the input neither aborts decoding
nor contributes text: the output equals the output without that
line. -/
theorem c5_malformed_line_skipped (parse : String → Option StreamChunk)
    (bad : String) (hparse : parse bad = none) (hnd : ¬ bad = "[DONE]")
    (pre suf : List String) (e : Option String) :
    handleStreamResponse parse (pre ++ ("data: " ++ bad) :: suf) e
      = handleStreamResponse parse (pre ++ suf) e :=
  streamLoop_skip_unparsable parse bad hparse hnd e suf pre ""

/-- Witness for C5 (amended): inserting `data: {not json` between two
valid frames leaves the decoded text unchanged. -/
theorem c5_malformed_line_skipped_witness :
    handleStreamResponse demoParse
        (["data: chunk-1-zheshi"]
          ++ ("data: " ++ "\x7bnot json") :: ["data: chunk-2-yige", "data: [DONE]"]) none
      = handleStreamResponse demoParse
        (["data: chunk-1-zheshi"] ++ ["data: chunk-2-yige", "data: [DONE]"]) none :=
  c5_malformed_line_skipped demoParse "\x7bnot json" (by decide) (by decide)
    ["data: chunk-1-zheshi"] ["data: chunk-2-yige", "data: [DONE]"] none

/-- Claim C6: the decoder stops at a `data: [DONE]` line: decoding the
whole input (whatever follows the marker, and whatever the read error
after the remaining lines would have been) equals decoding only the
prefix up to and including the marker. -/
theorem c6_done_marker_terminal (parse : String → Option StreamChunk)
    (pre suf : List String) (e : Option String) :
    handleStreamResponse parse (pre ++ "data: [DONE]" :: suf) e
      = handleStreamResponse parse (pre ++ ["data: [DONE]"]) none :=
  streamLoop_stops_at_done parse e none suf pre ""

/-- Claim C7: when the underlying read fails after the given lines
(none of which is the terminal marker), the decoder fails with a
stream-read error that carries exactly the text accumulated from the
frames read before the failure — the text of a clean run over the same
lines; with zero lines that text is empty. -/
theorem c7_read_error_keeps_text (parse : String → Option StreamChunk)
    (lines : List String) (cause : String)
    (h : lines.all (fun l => !(doneLineB l)) = true) :
    handleStreamResponse parse lines (some cause)
      = ((handleStreamResponse parse lines none).1,
         some (ChatError.streamReadError cause)) :=
  streamLoop_readErr_keeps_text parse cause lines "" h

/-- Witness for C7: a read failure after two frames surfaces the error
together with the two accumulated deltas (and, at the empty input, the
same theorem instantiates to an empty accumulated text). -/
theorem c7_read_error_keeps_text_witness :
    handleStreamResponse demoParse
        ["data: chunk-1-zheshi", "", "data: chunk-2-yige"] (some "mock read error")
      = ("这是一个", some (ChatError.streamReadError "mock read error")) :=
  (c7_read_error_keeps_text demoParse
      ["data: chunk-1-zheshi", "", "data: chunk-2-yige"] "mock read error"
      (by decide)).trans (by decide)

/-- Claim C8: for a base URL `b` not ending in `/`, the endpoint URL
equals the one computed for `b ++ "/"`, and both equal
`b ++ "/v1/chat/completions"`. -/
theorem c8_url_trailing_slash (b : String) (h : hasSuffix b "/" = false) :
    endpointURL b = endpointURL (b ++ "/")
    ∧ endpointURL b = b ++ "/v1/chat/completions" := by
  have h1 : endpointURL b = (b ++ "/") ++ "v1/chat/completions" := by
    simp only [endpointURL, h, Bool.not_false, if_true]
  have h2 : endpointURL (b ++ "/") = (b ++ "/") ++ "v1/chat/completions" := by
    simp only [endpointURL, hasSuffix_append_slash, Bool.not_true,
      Bool.false_eq_true, if_false]
  refine ⟨h1.trans h2.symm, h1.trans ?_⟩
  rw [String.append_assoc]
  exact congrArg (fun t => b ++ t) (by decide)

/-- Witness for C8 at a concrete base URL. -/
theorem c8_url_trailing_slash_witness :
    endpointURL "https://api.example.com" = endpointURL "https://api.example.com/"
    ∧ endpointURL "https://api.example.com"
      = "https://api.example.com/v1/chat/completions" :=
  ⟨(c8_url_trailing_slash "https://api.example.com" (by decide)).1.trans (by decide),
   (c8_url_trailing_slash "https://api.example.com" (by decide)).2.trans (by decide)⟩

/-- Claim C9: an input body in which no line starts with `data: `
(e.g. a non-SSE body received when streaming was requested), read
without error, decodes to the empty string with no error. -/
theorem c9_no_data_returns_empty (parse : String → Option StreamChunk)
    (lines : List String)
    (h : lines.all (fun l => !(hasPrefix l "data: ")) = true) :
    handleStreamResponse parse lines none = ("", none) := by
  have h2 : lines.all ignorableB = true := by
    rw [List.all_eq_true] at h ⊢
    intro l hl
    have h3 := h l hl
    simp only [Bool.not_eq_true'] at h3
    simp [ignorableB, h3]
  have h4 := streamLoop_ignorable parse none [] lines "" h2
  rw [List.append_nil] at h4
  rw [handleStreamResponse, h4]
  rfl

/-- Witness for C9: a three-line HTML-ish body decodes to the empty
string with no error. -/
theorem c9_no_data_returns_empty_witness :
    handleStreamResponse demoParse ["<html>", "", "not sse"] none = ("", none) :=
  c9_no_data_returns_empty demoParse ["<html>", "", "not sse"] (by decide)

/-- Claim C10: `Chat` treats every status other than exactly 200 as
failure: any response with status ≠ 200 — including 201, 204 and 3xx —
yields the API error with that status and body, independent of the
decoders, so the body is never decoded as a chat response. -/
theorem c10_non_200_api_error (stream : Bool)
    (decodeEnvelope : String → Option OpenAIResponse)
    (decodeChunk : String → Option StreamChunk)
    (resp : HTTPResponse) (h : resp.statusCode ≠ 200) :
    clientChatResponse stream decodeEnvelope decodeChunk resp
      = ("", some (ChatError.apiError resp.statusCode resp.body)) := by
  rw [clientChatResponse, if_pos h]

/-- Witness for C10: a 201 Created response with a decodable-looking
body still fails with the API error. -/
theorem c10_non_200_api_error_witness :
    clientChatResponse false (fun _ => none) (fun _ => none)
        { statusCode := 201, body := "created", bodyLines := [], readErr := none }
      = ("", some (ChatError.apiError 201 "created")) :=
  c10_non_200_api_error false (fun _ => none) (fun _ => none)
    { statusCode := 201, body := "created", bodyLines := [], readErr := none }
    (by decide)

end AiSpec
